import Mathlib

/-!
Verification of the RideFlow cross-tab chat synchronization layer
(`src/shared/chat-sync.js`, `src/driver-chat-sync.js`, `src/chat-sync-bridge.js`,
and the `Storage` module).

The JavaScript modules are embedded shallowly:

* JS objects used as string-keyed maps (`chats`, `unread`, `_lastSeenTimestamp`,
  `_seenCount`) become association lists `List (String × α)` with first-match
  lookup, in-place update and key deletion mirroring property access,
  assignment and `delete`.
* ISO-8601 timestamps are compared by JS `<` / `>`, which on strings is
  lexicographic comparison; they are embedded as Lean `String`s with the
  lexicographic `LinearOrder String`.
* Module-level mutable state (`_lastSeenTimestamp`, `_activeOrderId`,
  `_lastSeenTs`, `_seenCount`) is passed explicitly; each event-handler body
  becomes a pure function from (persisted store, instance state) to
  (new instance state, messages delivered to the registered listener).
* `localStorage` with its failure modes (unparseable cell contents,
  `setItem` throwing on quota) is modelled by `KVStore`; the pure functions
  above model the successful-write path, and the raw read/write wrappers
  (`Storage.safeGet` / `Storage.safeSet` / `ChatSync.readChats` /
  `ChatSync.writeChats`) model the failure behaviour.
-/

namespace RideFlow

/-- Message shape persisted in the `rideflow-chats` map
(`{ id, sender, type, content, imageUrl?, fileName?, senderName?, senderEmail?,
timestamp, read }`); optional JS properties become `Option`. -/
structure Message where
  id : String
  orderId : Option String := none
  sender : String
  type : String
  content : String
  imageUrl : Option String := none
  fileName : Option String := none
  senderName : Option String := none
  senderEmail : Option String := none
  timestamp : String
  read : Bool
deriving DecidableEq

/-- Conversation record stored under one key of the chats map:
`{ orderId, customerId?, driverId?, messages, createdAt, lastMessageTime }`. -/
structure Conversation where
  orderId : String
  customerId : Option String := none
  driverId : Option String := none
  messages : List Message
  createdAt : String
  lastMessageTime : String
deriving DecidableEq

/-- Authenticated user returned by `Storage.getCurrentUser()`. -/
structure User where
  name : String
  email : String
deriving DecidableEq

/-- Association-list embedding of a JS string-keyed object: `obj[k]`. -/
def lookupKV {α : Type} : List (String × α) → String → Option α
  | [], _ => none
  | (k0, v) :: rest, k => if k0 = k then some v else lookupKV rest k

/-- Embedding of JS property assignment `obj[k] = v` (update first binding,
or append a fresh one). -/
def setKV {α : Type} : List (String × α) → String → α → List (String × α)
  | [], k, v => [(k, v)]
  | (k0, v0) :: rest, k, v =>
    if k0 = k then (k, v) :: rest else (k0, v0) :: setKV rest k v

/-- Embedding of JS `delete obj[k]`. -/
def removeKV {α : Type} (l : List (String × α)) (k : String) : List (String × α) :=
  l.filter fun kv => !(kv.1 == k)

/-- The parsed contents of the `rideflow-chats` localStorage key. -/
abbrev Chats := List (String × Conversation)

/-- The parsed contents of the `rideflow-unread-messages` localStorage key. -/
abbrev UnreadMap := List (String × Nat)

/-- Per-instance `_lastSeenTimestamp` / `_lastSeenTs` map (orderId → timestamp). -/
abbrev TsMap := List (String × String)

/-- JS `new Date(0).toISOString()`, the initial watermark. -/
def epochZero : String := "1970-01-01T00:00:00.000Z"

/-- JS `(chats[orderId] && chats[orderId].messages) || []`. -/
def getMessagesOf (chats : Chats) (orderId : String) : List Message :=
  match lookupKV chats orderId with
  | some conv => conv.messages
  | none => []

/-- JS `m[orderId] || new Date(0).toISOString()`. -/
def tsOrEpoch (m : TsMap) (orderId : String) : String :=
  match lookupKV m orderId with
  | some ts => ts
  | none => epochZero

/-- JS `m[orderId] || 0`. -/
def natOrZero (m : List (String × Nat)) (orderId : String) : Nat :=
  match lookupKV m orderId with
  | some n => n
  | none => 0

/-- The JS `<` comparison between timestamp strings (`m.timestamp > lastSeen`
in the source is string comparison): lexicographic order, embedded as the
decidable lexicographic order on the underlying character lists. It agrees
with Mathlib's order on `String` (lemma `jsLt_iff` below). -/
def jsLt (a b : String) : Bool :=
  decide (a.data < b.data)

/-- The JS `<=` comparison between timestamp strings (`a <= b` iff `!(b < a)`). -/
def jsLe (a b : String) : Bool :=
  !(jsLt b a)

/-- JS truthiness fallback `v || dflt` for an optional string (absent and `''`
are falsy). -/
def jsOrElse (v : Option String) (dflt : String) : String :=
  match v with
  | some s => if s = "" then dflt else s
  | none => dflt

namespace ChatSync

/-- The sender enrichment performed by `ChatSync.sendMessage`:
`{ senderName: msg.senderName || (user ? user.name : 'Guest'),
senderEmail: msg.senderEmail || (user ? user.email : ''), ...msg }`.
Because `...msg` is spread last, a `senderName` / `senderEmail` property
present on `msg` wins; the computed default only survives when the property
is absent (`none`). -/
def enrich (user : Option User) (msg : Message) : Message :=
  { msg with
    senderName := some (msg.senderName.getD
      (match user with | some u => u.name | none => "Guest")),
    senderEmail := some (msg.senderEmail.getD
      (match user with | some u => u.email | none => "")) }

/-- Driver-side reconcile pass `ChatSync._checkForNewMessages(orderId)`:
read the conversation, filter the messages with `m.timestamp > lastSeen`
(note: no sender filter in the source), advance `_lastSeenTimestamp[orderId]`
to the timestamp of the last filtered message, and deliver the filtered
messages in order (`newMsgs.forEach(msg => _notify(msg))`), returned here
as the second component. -/
def checkForNewMessages (chats : Chats) (lastSeenTimestamp : TsMap)
    (orderId : String) : TsMap × List Message :=
  let msgs := getMessagesOf chats orderId
  let lastSeen := tsOrEpoch lastSeenTimestamp orderId
  let newMsgs := msgs.filter fun m => jsLt lastSeen m.timestamp
  match newMsgs.getLast? with
  | none => (lastSeenTimestamp, [])
  | some lastMsg => (setKV lastSeenTimestamp orderId lastMsg.timestamp, newMsgs)

/-- Watermark seeding in `ChatSync.init`: the timestamp of the last existing
message, or epoch zero when the conversation is empty. -/
def init (chats : Chats) (lastSeenTimestamp : TsMap) (orderId : String) : TsMap :=
  let msgs := getMessagesOf chats orderId
  setKV lastSeenTimestamp orderId
    (match msgs.getLast? with
     | some m => m.timestamp
     | none => epochZero)

/-- `ChatSync.sendMessage(orderId, msg)` (parsed-store level, successful-write
path): enrich the message, create the conversation record lazily, skip the
push when a message with the same id already exists, and increment the
driver-side unread counter whenever `enriched.sender !== 'driver'` —
the increment happens outside the dedup guard. -/
def sendMessage (user : Option User) (now : String) (chats : Chats)
    (unread : UnreadMap) (orderId : String) (msg : Message) : Chats × UnreadMap :=
  let enriched := enrich user msg
  let conv :=
    match lookupKV chats orderId with
    | some c => c
    | none =>
      { orderId := orderId, messages := [], createdAt := now,
        lastMessageTime := now }
  let conv' :=
    if conv.messages.any fun m => m.id == enriched.id then conv
    else { conv with
             messages := conv.messages ++ [enriched],
             lastMessageTime := enriched.timestamp }
  (setKV chats orderId conv',
   if enriched.sender == "driver" then unread
   else setKV unread orderId (natOrZero unread orderId + 1))

/-- Iterated `sendMessage` with a fixed sender identity and order id: the
"sequence of appends" of the spec's testable properties. -/
def sendAll (user : Option User) (now : String) (orderId : String)
    (start : Chats × UnreadMap) (ms : List Message) : Chats × UnreadMap :=
  ms.foldl (fun acc m => sendMessage user now acc.1 acc.2 orderId m) start

/-- `ChatSync.deleteChatHistory(orderId)`: if the conversation exists, empty
its `messages` and stamp `lastMessageTime = now`; otherwise the map is
written back unchanged. -/
def deleteChatHistory (now : String) (chats : Chats) (orderId : String) : Chats :=
  match lookupKV chats orderId with
  | some c => setKV chats orderId { c with messages := [], lastMessageTime := now }
  | none => chats

/-- `ChatSync.getMessages(orderId)`. -/
def getMessages (chats : Chats) (orderId : String) : List Message :=
  getMessagesOf chats orderId

/-- `ChatSync.markAllRead(orderId)`: `delete unread[orderId]`. -/
def markAllRead (unread : UnreadMap) (orderId : String) : UnreadMap :=
  removeKV unread orderId

/-- `ChatSync.getUnreadCount(orderId)`: `unread[orderId] || 0`. -/
def getUnreadCount (unread : UnreadMap) (orderId : String) : Nat :=
  natOrZero unread orderId

end ChatSync

namespace ChatSyncBridge

/-- Module-level mutable state of the customer-side bridge:
`_activeOrderId`, `_userId`, `_lastSeenTs`, `_seenCount`. -/
structure BridgeState where
  activeOrderId : Option String := none
  userId : String := "customer"
  lastSeenTs : TsMap := []
  seenCount : List (String × Nat) := []
deriving DecidableEq

/-- Bridge state before `init` has run. -/
def initialState : BridgeState := {}

/-- Outcome of one `_checkForDriverMessages` pass: the updated module state,
the messages handed to `_onDriverMessage` (in call order), and whether
`_onChatCleared` was invoked (it is called at most once per pass). -/
structure CheckResult where
  state : BridgeState
  delivered : List Message
  clearedFired : Bool
deriving DecidableEq

/-- Customer-side reconcile pass `ChatSyncBridge._checkForDriverMessages`:
first the count-shrink clear detection (`msgs.length < seenCount` resets
`_lastSeenTs[orderId]` to epoch zero — `new Date(0).toISOString()` — and
`_seenCount[orderId]` to 0, fires `_onChatCleared(orderId)`, and returns);
otherwise record the new count, filter driver-authored messages newer than
the watermark, advance the watermark to the last filtered message's
timestamp, and deliver the filtered messages in order. -/
def checkForDriverMessages (chats : Chats) (st : BridgeState)
    (orderId : String) : CheckResult :=
  let msgs := getMessagesOf chats orderId
  let lastTs := tsOrEpoch st.lastSeenTs orderId
  let seenCount := natOrZero st.seenCount orderId
  if msgs.length < seenCount then
    { state := { st with
                   lastSeenTs := setKV st.lastSeenTs orderId epochZero,
                   seenCount := setKV st.seenCount orderId 0 },
      delivered := [], clearedFired := true }
  else
    let st1 := { st with seenCount := setKV st.seenCount orderId msgs.length }
    let fresh := msgs.filter fun m =>
      m.sender == "driver" && jsLt lastTs m.timestamp
    match fresh.getLast? with
    | none => { state := st1, delivered := [], clearedFired := false }
    | some lastMsg =>
      { state := { st1 with
                     lastSeenTs := setKV st1.lastSeenTs orderId lastMsg.timestamp },
        delivered := fresh, clearedFired := false }

/-- `ChatSyncBridge.init(orderId, userId, onDriverMsg, onCleared)`: records the
active order, seeds `_lastSeenTs[orderId]` at the most recent existing message
(or epoch zero) and `_seenCount[orderId]` at the current message count. -/
def init (chats : Chats) (st : BridgeState) (orderId : String)
    (userId : Option String) : BridgeState :=
  let msgs := getMessagesOf chats orderId
  { st with
      activeOrderId := some orderId,
      userId := jsOrElse userId "customer",
      lastSeenTs := setKV st.lastSeenTs orderId
        (match msgs.getLast? with
         | some m => m.timestamp
         | none => epochZero),
      seenCount := setKV st.seenCount orderId msgs.length }

/-- `ChatSyncBridge._persist(msg)` (parsed-store level, successful-write path):
create the conversation record lazily (with `customerId := _userId`,
`driverId := 'drv_001'`), push the message unconditionally (no dedup on this
path), stamp `lastMessageTime`, and increment the driver-side unread counter. -/
def persist (now : String) (userId : String) (chats : Chats) (unread : UnreadMap)
    (activeOrderId : String) (msg : Message) : Chats × UnreadMap :=
  let conv :=
    match lookupKV chats activeOrderId with
    | some c => c
    | none =>
      { orderId := activeOrderId, customerId := some userId,
        driverId := some "drv_001", messages := [], createdAt := now,
        lastMessageTime := now }
  let conv' := { conv with
                   messages := conv.messages ++ [msg],
                   lastMessageTime := msg.timestamp }
  (setKV chats activeOrderId conv',
   setKV unread activeOrderId (natOrZero unread activeOrderId + 1))

/-- JS truthiness guard `if (!_activeOrderId) return;` (null and the empty
string are both falsy). -/
def activeOrDefault (st : BridgeState) : Option String :=
  match st.activeOrderId with
  | some s => if s = "" then none else some s
  | none => none

/-- `ChatSyncBridge.sendTextMessage(text)`: a no-op unless an active order id
is set; otherwise build a customer text message (`_genId()` and
`new Date().toISOString()` are passed in as `genId` / `now`) and persist it. -/
def sendTextMessage (user : Option User) (genId now text : String)
    (st : BridgeState) (chats : Chats) (unread : UnreadMap) : Chats × UnreadMap :=
  match activeOrDefault st with
  | none => (chats, unread)
  | some oid =>
    let msg : Message :=
      { id := genId, orderId := some oid, sender := "customer",
        senderName := some (jsOrElse (user.map User.name)
          (jsOrElse (some st.userId) "Customer")),
        senderEmail := some ((user.map User.email).getD ""),
        type := "text", content := text, timestamp := now, read := false }
    persist now st.userId chats unread oid msg

/-- `ChatSyncBridge.sendImageMessage(dataUrl, fileName)`: a no-op unless an
active order id is set; otherwise build a customer image message and persist
it. -/
def sendImageMessage (user : Option User) (genId now dataUrl : String)
    (fileName : Option String) (st : BridgeState) (chats : Chats)
    (unread : UnreadMap) : Chats × UnreadMap :=
  match activeOrDefault st with
  | none => (chats, unread)
  | some oid =>
    let msg : Message :=
      { id := genId, orderId := some oid, sender := "customer",
        senderName := some (jsOrElse (user.map User.name)
          (jsOrElse (some st.userId) "Customer")),
        senderEmail := some ((user.map User.email).getD ""),
        type := "image", content := jsOrElse fileName "image",
        imageUrl := some dataUrl, fileName := some (jsOrElse fileName "image"),
        timestamp := now, read := false }
    persist now st.userId chats unread oid msg

/-- `ChatSyncBridge.getHistory()`: empty unless an active order id is set. -/
def getHistory (st : BridgeState) (chats : Chats) : List Message :=
  match st.activeOrderId with
  | none => []
  | some oid => getMessagesOf chats oid

/-- `ChatSyncBridge.deleteChatHistory(orderId?)`:
`target = orderId || _activeOrderId; if (!target) return;` then empty the
target conversation's messages, stamp `lastMessageTime = now`, and reset this
instance's own seen pointer (`_lastSeenTs[target] = now`, `_seenCount = 0`). -/
def deleteChatHistory (now : String) (orderId : Option String)
    (st : BridgeState) (chats : Chats) : Chats × BridgeState :=
  let target :=
    match orderId with
    | some s => if s = "" then activeOrDefault st else some s
    | none => activeOrDefault st
  match target with
  | none => (chats, st)
  | some t =>
    let chats' :=
      match lookupKV chats t with
      | some c => setKV chats t { c with messages := [], lastMessageTime := now }
      | none => chats
    (chats',
     { st with
         lastSeenTs := setKV st.lastSeenTs t now,
         seenCount := setKV st.seenCount t 0 })

end ChatSyncBridge

/-- One localStorage cell as seen through `JSON.parse`: either a string that
parses back to a value of the expected shape, or contents on which
`JSON.parse` throws. -/
inductive Raw (α : Type) where
  | val (a : α)
  | corrupt
deriving DecidableEq

/-- The raw key-value store for one key: the cell's contents (if present) and
whether the next `setItem` throws (quota exceeded). -/
structure KVStore (α : Type) where
  cell : Option (Raw α)
  quotaExceeded : Bool
deriving DecidableEq

namespace Storage

/-- `Storage._safeGet(key)`: `try { raw = getItem(key); return raw ?
JSON.parse(raw) : null } catch { return null }`. -/
def safeGet {α : Type} (st : KVStore α) : Option α :=
  match st.cell with
  | none => none
  | some (Raw.val a) => some a
  | some Raw.corrupt => none

/-- `Storage._safeSet(key, value)`: `try { setItem(...); return true } catch
{ return false }` — the write failure is caught and surfaced as `false`. -/
def safeSet {α : Type} (st : KVStore α) (v : α) : KVStore α × Bool :=
  if st.quotaExceeded then (st, false)
  else ({ st with cell := some (Raw.val v) }, true)

/-- `Storage.getChats()`: `_safeGet('rideflow-chats') || {}`. -/
def getChats (st : KVStore Chats) : Chats :=
  (safeGet st).getD []

/-- `Storage.setChats(chats)`. -/
def setChats (st : KVStore Chats) (chats : Chats) : KVStore Chats × Bool :=
  safeSet st chats

/-- `Storage.getUnread()`: `_safeGet('rideflow-unread-messages') || {}`. -/
def getUnread (st : KVStore UnreadMap) : UnreadMap :=
  (safeGet st).getD []

/-- `Storage.addMessage(orderId, msg)`: read via `getChats`, create the
conversation lazily, dedup by id — returning `false` without writing when the
id already exists — and otherwise push, stamp `lastMessageTime` and write via
`setChats`. -/
def addMessage (now : String) (st : KVStore Chats) (orderId : String)
    (msg : Message) : KVStore Chats × Bool :=
  let chats := getChats st
  let conv :=
    match lookupKV chats orderId with
    | some c => c
    | none =>
      { orderId := orderId, messages := [], createdAt := now,
        lastMessageTime := now }
  if conv.messages.any fun m => m.id == msg.id then (st, false)
  else
    setChats st (setKV chats orderId
      { conv with
          messages := conv.messages ++ [msg],
          lastMessageTime := msg.timestamp })

end Storage

namespace ChatSync

/-- `ChatSync._readChats()`: `try { return JSON.parse(getItem(KEY) || '{}') }
catch { return {} }` — absent and unparseable cells both read as `{}`. -/
def readChats (st : KVStore Chats) : Chats :=
  match st.cell with
  | none => []
  | some (Raw.val c) => c
  | some Raw.corrupt => []

/-- `ChatSync._writeChats(chats)`: a bare `localStorage.setItem(KEY,
JSON.stringify(chats))` with no try/catch — a quota failure propagates to the
caller, modelled as `Except.error`. -/
def writeChats (st : KVStore Chats) (chats : Chats) : Except Unit (KVStore Chats) :=
  if st.quotaExceeded then Except.error ()
  else Except.ok { st with cell := some (Raw.val chats) }

end ChatSync

/-! ### Concrete sample data used by witnesses and counterexamples.
Timestamps are arbitrary strings under the JS lexicographic comparison; the
short strings `"T1" < "T2" < ... < "T9"` stand in for increasing ISO
timestamps (all above `epochZero`, since `'1' < 'T'`). -/

/-- A driver-authored message at time `"T1"`. -/
def driverMsgT1 : Message :=
  { id := "d1", sender := "driver", type := "text", content := "on my way",
    timestamp := "T1", read := false }

/-- A driver-authored message at time `"T2"`. -/
def driverMsgT2 : Message :=
  { id := "d2", sender := "driver", type := "text", content := "arrived",
    timestamp := "T2", read := false }

/-- A customer-authored message at time `"T1"`. -/
def custMsgT1 : Message :=
  { id := "c1", sender := "customer", type := "text", content := "hello",
    timestamp := "T1", read := false }

/-- A customer-authored message at time `"T2"`. -/
def custMsgT2 : Message :=
  { id := "c2", sender := "customer", type := "text", content := "where",
    timestamp := "T2", read := false }

/-- A conversation for order `"o1"` holding the given messages. -/
def convWith (ms : List Message) : Conversation :=
  { orderId := "o1", messages := ms, createdAt := "T0", lastMessageTime := "T0" }

/-- A chats store whose only conversation `"o1"` holds the given messages. -/
def chatsWith (ms : List Message) : Chats :=
  [("o1", convWith ms)]

/-- An empty, healthy raw store (nothing written yet, no quota pressure). -/
def emptyStore : KVStore Chats :=
  { cell := none, quotaExceeded := false }

/-- A raw store whose cell holds contents on which `JSON.parse` throws. -/
def corruptStore : KVStore Chats :=
  { cell := some Raw.corrupt, quotaExceeded := false }

/-- A raw store whose next write throws (quota exceeded). -/
def quotaStore : KVStore Chats :=
  { cell := some (Raw.val []), quotaExceeded := true }

/-! ### Basic lemmas about the embedding -/

/-- The embedded JS `<` on timestamp strings agrees with the lexicographic
order on `String`. -/
theorem jsLt_iff {a b : String} : jsLt a b = true ↔ a < b := by
  rw [jsLt, decide_eq_true_iff]
  exact String.lt_iff_toList_lt.symm

/-- The embedded JS `<=` on timestamp strings agrees with the lexicographic
order on `String`. -/
theorem jsLe_iff {a b : String} : jsLe a b = true ↔ a ≤ b := by
  rw [jsLe, Bool.not_eq_true', ← Bool.not_eq_true, jsLt_iff, not_lt]

theorem lookupKV_setKV_self {α : Type} (l : List (String × α)) (k : String) (v : α) :
    lookupKV (setKV l k v) k = some v := by
  induction l with
  | nil => simp [setKV, lookupKV]
  | cons p rest ih =>
    obtain ⟨k0, v0⟩ := p
    by_cases h : k0 = k
    · simp [setKV, h, lookupKV]
    · simp [setKV, h, lookupKV, ih]

theorem lookupKV_setKV_ne {α : Type} (l : List (String × α)) (k k' : String) (v : α)
    (h : k' ≠ k) : lookupKV (setKV l k v) k' = lookupKV l k' := by
  induction l with
  | nil => simp [setKV, lookupKV, Ne.symm h]
  | cons p rest ih =>
    obtain ⟨k0, v0⟩ := p
    by_cases h0 : k0 = k
    · subst h0
      simp [setKV, lookupKV, Ne.symm h]
    · simp [setKV, h0, lookupKV, ih]

/-- Writing back the value already stored under a key leaves the map itself
unchanged. -/
theorem setKV_self {α : Type} {l : List (String × α)} {k : String} {v : α}
    (h : lookupKV l k = some v) : setKV l k v = l := by
  induction l with
  | nil => simp [lookupKV] at h
  | cons p rest ih =>
    obtain ⟨k0, v0⟩ := p
    by_cases h0 : k0 = k
    · subst h0
      simp [lookupKV] at h
      simp [setKV, h]
    · simp [lookupKV, h0] at h
      simp [setKV, h0, ih h]

theorem lookupKV_removeKV_self {α : Type} (l : List (String × α)) (k : String) :
    lookupKV (removeKV l k) k = none := by
  induction l with
  | nil => rfl
  | cons p rest ih =>
    obtain ⟨k0, v0⟩ := p
    by_cases h : k0 = k
    · simpa [removeKV, List.filter_cons, h] using ih
    · simpa [removeKV, List.filter_cons, h, lookupKV] using ih

/-- In a list whose timestamps are pairwise nondecreasing, every element's
timestamp is bounded by the last element's. -/
theorem ts_le_getLast : ∀ (l : List Message),
    l.Pairwise (fun a b => a.timestamp ≤ b.timestamp) →
    ∀ lastMsg, l.getLast? = some lastMsg →
    ∀ m ∈ l, m.timestamp ≤ lastMsg.timestamp := by
  intro l
  induction l with
  | nil => intro _ lastMsg h; simp at h
  | cons a t ih =>
    intro hp lastMsg hl m hm
    cases t with
    | nil =>
      simp at hl hm
      subst hl; subst hm
      exact le_refl _
    | cons b t2 =>
      rw [List.getLast?_cons_cons] at hl
      rcases List.mem_cons.mp hm with rfl | hm2
      · exact (List.pairwise_cons.mp hp).1 lastMsg (List.mem_of_getLast?_eq_some hl)
      · exact ih (List.pairwise_cons.mp hp).2 lastMsg hl m hm2

/-- The driver-side reconcile pass delivers exactly the stored messages whose
timestamp is above the instance's watermark — with no condition on the
sender. -/
theorem checkForNewMessages_snd (chats : Chats) (ts : TsMap) (oid : String) :
    (ChatSync.checkForNewMessages chats ts oid).2
      = (getMessagesOf chats oid).filter fun m => jsLt (tsOrEpoch ts oid) m.timestamp := by
  simp only [ChatSync.checkForNewMessages]
  split
  next heq => rw [List.getLast?_eq_none_iff] at heq; exact heq.symm
  next lastMsg heq => rfl

/-- When the pass selects nothing, the watermark map is left untouched. -/
theorem checkForNewMessages_fst_none (chats : Chats) (ts : TsMap) (oid : String)
    (h : ((getMessagesOf chats oid).filter
        fun m => jsLt (tsOrEpoch ts oid) m.timestamp).getLast? = none) :
    (ChatSync.checkForNewMessages chats ts oid).1 = ts := by
  simp only [ChatSync.checkForNewMessages]
  split
  next heq => rfl
  next lastMsg heq => rw [h] at heq; cases heq

/-- When the pass selects something, the watermark becomes the timestamp of
the last selected message (in stored order). -/
theorem checkForNewMessages_fst_some (chats : Chats) (ts : TsMap) (oid : String)
    (lastMsg : Message)
    (h : ((getMessagesOf chats oid).filter
        fun m => jsLt (tsOrEpoch ts oid) m.timestamp).getLast? = some lastMsg) :
    (ChatSync.checkForNewMessages chats ts oid).1 = setKV ts oid lastMsg.timestamp := by
  simp only [ChatSync.checkForNewMessages]
  split
  next heq => rw [h] at heq; cases heq
  next lm heq => rw [h] at heq; cases heq; rfl

/-- Without a count shrink, the customer-side pass delivers exactly the
driver-authored stored messages whose timestamp is above the watermark. -/
theorem checkForDriverMessages_delivered (chats : Chats)
    (st : ChatSyncBridge.BridgeState) (oid : String)
    (h : ¬ (getMessagesOf chats oid).length < natOrZero st.seenCount oid) :
    (ChatSyncBridge.checkForDriverMessages chats st oid).delivered
      = (getMessagesOf chats oid).filter
          fun m => m.sender == "driver" && jsLt (tsOrEpoch st.lastSeenTs oid) m.timestamp := by
  simp only [ChatSyncBridge.checkForDriverMessages]
  rw [if_neg h]
  split
  next heq => rw [List.getLast?_eq_none_iff] at heq; exact heq.symm
  next lastMsg heq => rfl

/-- Every message the customer-side pass delivers is driver-authored. -/
theorem checkForDriverMessages_sender (chats : Chats)
    (st : ChatSyncBridge.BridgeState) (oid : String) :
    ∀ m ∈ (ChatSyncBridge.checkForDriverMessages chats st oid).delivered,
      m.sender = "driver" := by
  intro m hm
  simp only [ChatSyncBridge.checkForDriverMessages] at hm
  by_cases hc : (getMessagesOf chats oid).length < natOrZero st.seenCount oid
  · rw [if_pos hc] at hm; simp at hm
  · rw [if_neg hc] at hm
    revert hm
    split
    next heq => intro hm; simp at hm
    next lastMsg heq =>
      intro hm
      have := (List.mem_filter.mp hm).2
      rw [Bool.and_eq_true] at this
      exact eq_of_beq this.1

/-- Every message the customer-side pass delivers is in the stored sequence:
messages absent from the store (e.g. cleared ones) are never delivered. -/
theorem checkForDriverMessages_mem (chats : Chats)
    (st : ChatSyncBridge.BridgeState) (oid : String) :
    ∀ m ∈ (ChatSyncBridge.checkForDriverMessages chats st oid).delivered,
      m ∈ getMessagesOf chats oid := by
  intro m hm
  simp only [ChatSyncBridge.checkForDriverMessages] at hm
  by_cases hc : (getMessagesOf chats oid).length < natOrZero st.seenCount oid
  · rw [if_pos hc] at hm; simp at hm
  · rw [if_neg hc] at hm
    revert hm
    split
    next heq => intro hm; simp at hm
    next lastMsg heq => intro hm; exact (List.mem_filter.mp hm).1

theorem enrich_id (u : Option User) (m : Message) :
    (ChatSync.enrich u m).id = m.id := rfl

theorem enrich_sender (u : Option User) (m : Message) :
    (ChatSync.enrich u m).sender = m.sender := rfl

theorem enrich_timestamp (u : Option User) (m : Message) :
    (ChatSync.enrich u m).timestamp = m.timestamp := rfl

/-- Sending a message whose id is fresh for the conversation appends its
enriched form at the end of the stored sequence. -/
theorem sendMessage_msgs_fresh (u : Option User) (now : String) (chats : Chats)
    (unr : UnreadMap) (oid : String) (msg : Message)
    (h : ∀ m0 ∈ getMessagesOf chats oid, m0.id ≠ msg.id) :
    getMessagesOf (ChatSync.sendMessage u now chats unr oid msg).1 oid
      = getMessagesOf chats oid ++ [ChatSync.enrich u msg] := by
  simp only [ChatSync.sendMessage]
  have hany : ∀ (c : Conversation), c.messages = getMessagesOf chats oid →
      (c.messages.any fun m => m.id == (ChatSync.enrich u msg).id) = false := by
    intro c hc
    rw [List.any_eq_false]
    intro m0 hm0
    rw [hc] at hm0
    simp only [enrich_id, beq_iff_eq]
    exact h m0 hm0
  cases hl : lookupKV chats oid with
  | none =>
    have h0 : getMessagesOf chats oid = [] := by simp [getMessagesOf, hl]
    rw [h0]
    simp only [hl]
    simp [getMessagesOf, lookupKV_setKV_self]
  | some c =>
    have h0 : getMessagesOf chats oid = c.messages := by simp [getMessagesOf, hl]
    rw [h0]
    simp only [hl]
    rw [hany c h0.symm]
    simp [getMessagesOf, lookupKV_setKV_self]

/-- Sending a message whose id already occurs in the conversation leaves the
whole persisted chats map unchanged. -/
theorem sendMessage_chats_dup (u : Option User) (now : String) (chats : Chats)
    (unr : UnreadMap) (oid : String) (msg : Message)
    (h : ∃ m0 ∈ getMessagesOf chats oid, m0.id = msg.id) :
    (ChatSync.sendMessage u now chats unr oid msg).1 = chats := by
  obtain ⟨m0, hm0, hid⟩ := h
  simp only [ChatSync.sendMessage]
  cases hl : lookupKV chats oid with
  | none => simp [getMessagesOf, hl] at hm0
  | some c =>
    have h0 : getMessagesOf chats oid = c.messages := by simp [getMessagesOf, hl]
    rw [h0] at hm0
    have hany : (c.messages.any fun m => m.id == (ChatSync.enrich u msg).id) = true := by
      rw [List.any_eq_true]
      exact ⟨m0, hm0, by simp [enrich_id, hid]⟩
    simp only [hany, if_true]
    exact setKV_self hl

/-- Each `sendMessage` call bumps the conversation's unread counter by one
exactly when the message's sender is not `'driver'` — whether or not the
message was actually inserted. -/
theorem sendMessage_unread (u : Option User) (now : String) (chats : Chats)
    (unr : UnreadMap) (oid : String) (msg : Message) :
    ChatSync.getUnreadCount (ChatSync.sendMessage u now chats unr oid msg).2 oid
      = ChatSync.getUnreadCount unr oid
        + (if msg.sender = "driver" then 0 else 1) := by
  simp only [ChatSync.sendMessage, ChatSync.getUnreadCount]
  by_cases h : msg.sender = "driver"
  · have : ((ChatSync.enrich u msg).sender == "driver") = true := by
      simp [enrich_sender, h]
    rw [this]
    simp [h]
  · have : ((ChatSync.enrich u msg).sender == "driver") = false := by
      simp [enrich_sender, h]
    rw [this]
    simp only [Bool.false_eq_true, if_false, h, natOrZero, lookupKV_setKV_self]

/-- Folding `sendMessage` over a list of messages with pairwise-fresh ids
appends their enriched forms in order. -/
theorem sendAll_msgs (u : Option User) (now : String) (oid : String) :
    ∀ (ms : List Message) (chats : Chats) (unr : UnreadMap),
    (∀ m ∈ ms, ∀ m0 ∈ getMessagesOf chats oid, m0.id ≠ m.id) →
    (ms.map Message.id).Nodup →
    getMessagesOf (ChatSync.sendAll u now oid (chats, unr) ms).1 oid
      = getMessagesOf chats oid ++ ms.map (ChatSync.enrich u) := by
  intro ms
  induction ms with
  | nil => intro chats unr _ _; simp [ChatSync.sendAll]
  | cons m rest ih =>
    intro chats unr hfresh hnd
    have hstep := sendMessage_msgs_fresh u now chats unr oid m
      (fun m0 hm0 => hfresh m (List.mem_cons_self m rest) m0 hm0)
    have hrest : ∀ m' ∈ rest,
        ∀ m0 ∈ getMessagesOf (ChatSync.sendMessage u now chats unr oid m).1 oid,
        m0.id ≠ m'.id := by
      intro m' hm' m0 hm0
      rw [hstep] at hm0
      rcases List.mem_append.mp hm0 with h0 | h0
      · exact hfresh m' (List.mem_cons_of_mem m hm') m0 h0
      · have hm0e : m0 = ChatSync.enrich u m := by simpa using h0
        subst hm0e
        rw [enrich_id]
        intro he
        have hmap : (m :: rest).map Message.id = m.id :: rest.map Message.id := rfl
        rw [hmap] at hnd
        have hnotin : m.id ∉ rest.map Message.id := (List.nodup_cons.mp hnd).1
        exact hnotin (he ▸ List.mem_map_of_mem Message.id hm')
    have hnd2 : (rest.map Message.id).Nodup := by
      have h1 : ((m :: rest).map Message.id).Nodup := hnd
      rw [List.map_cons] at h1
      exact (List.nodup_cons.mp h1).2
    have : ChatSync.sendAll u now oid (chats, unr) (m :: rest)
        = ChatSync.sendAll u now oid (ChatSync.sendMessage u now chats unr oid m) rest := by
      simp [ChatSync.sendAll]
    rw [this]
    have := ih (ChatSync.sendMessage u now chats unr oid m).1
      (ChatSync.sendMessage u now chats unr oid m).2 hrest hnd2
    rw [Prod.mk.eta] at this
    rw [this, hstep]
    simp [List.map_cons, List.append_assoc]

/-- Folding `sendMessage` adds one unread tick per message whose sender is
not `'driver'`. -/
theorem sendAll_unread (u : Option User) (now : String) (oid : String) :
    ∀ (ms : List Message) (chats : Chats) (unr : UnreadMap),
    ChatSync.getUnreadCount (ChatSync.sendAll u now oid (chats, unr) ms).2 oid
      = ChatSync.getUnreadCount unr oid
        + ms.countP (fun m => !(m.sender == "driver")) := by
  intro ms
  induction ms with
  | nil => intro chats unr; simp [ChatSync.sendAll]
  | cons m rest ih =>
    intro chats unr
    have hstep : ChatSync.sendAll u now oid (chats, unr) (m :: rest)
        = ChatSync.sendAll u now oid (ChatSync.sendMessage u now chats unr oid m) rest := by
      simp [ChatSync.sendAll]
    rw [hstep]
    have hih := ih (ChatSync.sendMessage u now chats unr oid m).1
      (ChatSync.sendMessage u now chats unr oid m).2
    rw [Prod.mk.eta] at hih
    rw [hih, sendMessage_unread, List.countP_cons]
    by_cases h : m.sender = "driver"
    · rw [if_pos h]
      have hb : (!(m.sender == "driver")) = false := by simp [h]
      rw [hb]
      simp
    · rw [if_neg h]
      have hb : (!(m.sender == "driver")) = true := by simp [h]
      rw [hb]
      simp
      omega

/-- `Storage.addMessage` with a fresh id on a non-exhausted store appends the
message and leaves the quota flag untouched. -/
theorem addMessage_msgs_fresh (now : String) (st : KVStore Chats) (oid : String)
    (msg : Message) (hq : st.quotaExceeded = false)
    (h : ∀ m0 ∈ getMessagesOf (Storage.getChats st) oid, m0.id ≠ msg.id) :
    getMessagesOf (Storage.getChats (Storage.addMessage now st oid msg).1) oid
      = getMessagesOf (Storage.getChats st) oid ++ [msg]
    ∧ (Storage.addMessage now st oid msg).1.quotaExceeded = false := by
  cases hl : lookupKV (Storage.getChats st) oid with
  | none =>
    have h0 : getMessagesOf (Storage.getChats st) oid = [] := by
      simp [getMessagesOf, hl]
    rw [h0]
    constructor
    · simp only [Storage.addMessage, hl]
      simp [Storage.setChats, Storage.safeSet, hq, Storage.getChats, Storage.safeGet,
        getMessagesOf, lookupKV_setKV_self]
    · simp only [Storage.addMessage, hl]
      simp [Storage.setChats, Storage.safeSet, hq]
  | some c =>
    have h0 : getMessagesOf (Storage.getChats st) oid = c.messages := by
      simp [getMessagesOf, hl]
    have hany : (c.messages.any fun m => m.id == msg.id) = false := by
      rw [List.any_eq_false]
      intro m0 hm0
      simp only [beq_iff_eq]
      exact h m0 (h0 ▸ hm0)
    rw [h0]
    constructor
    · simp only [Storage.addMessage, hl]
      rw [hany]
      simp [Storage.setChats, Storage.safeSet, hq, Storage.getChats, Storage.safeGet,
        getMessagesOf, lookupKV_setKV_self]
    · simp only [Storage.addMessage, hl]
      rw [hany]
      simp [Storage.setChats, Storage.safeSet, hq]

/-- `Storage.addMessage` with an already-present id returns the store
unchanged together with `false`, without writing. -/
theorem addMessage_dup (now : String) (st : KVStore Chats) (oid : String)
    (msg : Message)
    (h : ∃ m0 ∈ getMessagesOf (Storage.getChats st) oid, m0.id = msg.id) :
    Storage.addMessage now st oid msg = (st, false) := by
  obtain ⟨m0, hm0, hid⟩ := h
  cases hl : lookupKV (Storage.getChats st) oid with
  | none => simp [getMessagesOf, hl] at hm0
  | some c =>
    have h0 : getMessagesOf (Storage.getChats st) oid = c.messages := by
      simp [getMessagesOf, hl]
    rw [h0] at hm0
    have hany : (c.messages.any fun m => m.id == msg.id) = true :=
      List.any_eq_true.mpr ⟨m0, hm0, by simp [hid]⟩
    simp only [Storage.addMessage, hl]
    rw [hany]
    simp

/-! ### The claims -/

/-- Claim C1, corrected. The claim asserts that every reconcile pass delivers
exactly the other party's messages above the watermark, and in particular
that a channel never delivers messages authored by its own role. The second
half is false for the driver-side channel (see `C1_counterexample`): the
customer-side bridge pass filters on `sender === 'driver'`, but the
driver-side `ChatSync._checkForNewMessages` filters on the timestamp alone
and delivers matching messages regardless of sender — including messages
authored by its own role. This theorem states the corrected delivery sets:
the driver-side pass delivers exactly the stored messages above the
watermark with no sender condition; the customer-side pass (absent a count
shrink) delivers exactly the driver-authored messages above the watermark,
and (unconditionally) never delivers a message whose sender is not
`'driver'`. -/
theorem C1_theorem (chats : Chats) (ts : TsMap) (st : ChatSyncBridge.BridgeState)
    (oid : String) :
    (ChatSync.checkForNewMessages chats ts oid).2
      = (getMessagesOf chats oid).filter (fun m => jsLt (tsOrEpoch ts oid) m.timestamp)
    ∧ (natOrZero st.seenCount oid ≤ (getMessagesOf chats oid).length →
        (ChatSyncBridge.checkForDriverMessages chats st oid).delivered
          = (getMessagesOf chats oid).filter
              (fun m => m.sender == "driver" && jsLt (tsOrEpoch st.lastSeenTs oid) m.timestamp))
    ∧ (∀ m ∈ (ChatSyncBridge.checkForDriverMessages chats st oid).delivered,
        m.sender = "driver") := by
  refine ⟨checkForNewMessages_snd chats ts oid, fun h => ?_,
    checkForDriverMessages_sender chats st oid⟩
  exact checkForDriverMessages_delivered chats st oid (Nat.not_lt.mpr h)

/-- Witness for C1 at a concrete store: a store holding one driver message
and one customer message, observed by a fresh customer-side bridge, delivers
exactly the driver message. -/
theorem C1_witness :
    natOrZero ChatSyncBridge.initialState.seenCount "o1"
      ≤ (getMessagesOf (chatsWith [driverMsgT1, custMsgT2]) "o1").length
    ∧ (ChatSyncBridge.checkForDriverMessages (chatsWith [driverMsgT1, custMsgT2])
        ChatSyncBridge.initialState "o1").delivered
      = (getMessagesOf (chatsWith [driverMsgT1, custMsgT2]) "o1").filter
          (fun m => m.sender == "driver"
            && jsLt (tsOrEpoch ChatSyncBridge.initialState.lastSeenTs "o1") m.timestamp)
    ∧ driverMsgT1 ∈ (ChatSyncBridge.checkForDriverMessages (chatsWith [driverMsgT1, custMsgT2])
        ChatSyncBridge.initialState "o1").delivered
    ∧ driverMsgT1.sender = "driver" :=
  ⟨by decide,
   (C1_theorem (chatsWith [driverMsgT1, custMsgT2]) []
      ChatSyncBridge.initialState "o1").2.1 (by decide),
   by decide,
   (C1_theorem (chatsWith [driverMsgT1, custMsgT2]) []
      ChatSyncBridge.initialState "o1").2.2 driverMsgT1 (by decide)⟩

/-- Counterexample to C1 as stated: the driver-side channel
(`ChatSync._checkForNewMessages`, the endpoint whose own role is `'driver'`)
delivers a message with `sender = 'driver'` to its listener — there is no
self-filtering on that side. -/
theorem C1_counterexample :
    (ChatSync.checkForNewMessages (chatsWith [driverMsgT1]) [] "o1").2 = [driverMsgT1]
    ∧ driverMsgT1.sender = "driver" := by
  constructor
  · decide
  · rfl

/-- Claim C2, corrected. On a count shrink the pass does reset
`lastObservedCount` to 0, invoke `onHistoryCleared` exactly once, deliver
nothing, and (the cleared messages being gone from the store) an immediately
following pass on the cleared store delivers nothing and does not fire the
callback again — but the watermark is reset to epoch zero
(`new Date(0).toISOString()`), not to "now" as the claim states (see
`C2_counterexample`). -/
theorem C2_theorem (chats : Chats) (st : ChatSyncBridge.BridgeState) (oid : String)
    (hempty : getMessagesOf chats oid = [])
    (hseen : 0 < natOrZero st.seenCount oid) :
    (ChatSyncBridge.checkForDriverMessages chats st oid).clearedFired = true
    ∧ (ChatSyncBridge.checkForDriverMessages chats st oid).delivered = []
    ∧ lookupKV (ChatSyncBridge.checkForDriverMessages chats st oid).state.lastSeenTs oid
        = some epochZero
    ∧ lookupKV (ChatSyncBridge.checkForDriverMessages chats st oid).state.seenCount oid
        = some 0
    ∧ (ChatSyncBridge.checkForDriverMessages chats
        (ChatSyncBridge.checkForDriverMessages chats st oid).state oid).clearedFired = false
    ∧ (ChatSyncBridge.checkForDriverMessages chats
        (ChatSyncBridge.checkForDriverMessages chats st oid).state oid).delivered = [] := by
  have hlen : (getMessagesOf chats oid).length < natOrZero st.seenCount oid := by
    rw [hempty]
    exact hseen
  have h1 : ChatSyncBridge.checkForDriverMessages chats st oid
      = { state := { st with
                       lastSeenTs := setKV st.lastSeenTs oid epochZero,
                       seenCount := setKV st.seenCount oid 0 },
          delivered := [], clearedFired := true } := by
    simp only [ChatSyncBridge.checkForDriverMessages]
    rw [if_pos hlen]
  rw [h1]
  refine ⟨rfl, rfl, lookupKV_setKV_self _ _ _, lookupKV_setKV_self _ _ _, ?_, ?_⟩
  all_goals
    simp only [ChatSyncBridge.checkForDriverMessages]
    rw [if_neg (by simp [natOrZero, lookupKV_setKV_self]), hempty]
    simp

/-- Witness for C2: two messages had been observed, the store was cleared;
the next pass fires the callback, resets the state, and a further pass stays
quiet. -/
theorem C2_witness :
    getMessagesOf (chatsWith []) "o1" = []
    ∧ 0 < natOrZero [("o1", 2)] "o1"
    ∧ (ChatSyncBridge.checkForDriverMessages (chatsWith [])
        { activeOrderId := some "o1", userId := "cust",
          lastSeenTs := [("o1", "T5")], seenCount := [("o1", 2)] } "o1").clearedFired = true
    ∧ lookupKV (ChatSyncBridge.checkForDriverMessages (chatsWith [])
        { activeOrderId := some "o1", userId := "cust",
          lastSeenTs := [("o1", "T5")], seenCount := [("o1", 2)] } "o1").state.lastSeenTs "o1"
        = some epochZero :=
  ⟨by decide, by decide,
   (C2_theorem (chatsWith [])
      { activeOrderId := some "o1", userId := "cust",
        lastSeenTs := [("o1", "T5")], seenCount := [("o1", 2)] } "o1"
      (by decide) (by decide)).1,
   (C2_theorem (chatsWith [])
      { activeOrderId := some "o1", userId := "cust",
        lastSeenTs := [("o1", "T5")], seenCount := [("o1", 2)] } "o1"
      (by decide) (by decide)).2.2.1⟩

/-- Counterexample to C2 as stated: after the clear-detection pass the
watermark is `epochZero`, which is strictly below the previously observed
timestamp `"T5"` — a reset to "now" would be at or above it (the pass runs
after the messages up to `"T5"` were observed), so the watermark is not
reset to "now". -/
theorem C2_counterexample :
    (ChatSyncBridge.checkForDriverMessages (chatsWith [])
        { activeOrderId := some "o1", userId := "cust",
          lastSeenTs := [("o1", "T5")], seenCount := [("o1", 2)] } "o1").clearedFired = true
    ∧ lookupKV (ChatSyncBridge.checkForDriverMessages (chatsWith [])
        { activeOrderId := some "o1", userId := "cust",
          lastSeenTs := [("o1", "T5")], seenCount := [("o1", 2)] } "o1").state.lastSeenTs "o1"
        = some epochZero
    ∧ jsLt epochZero "T5" = true := by
  refine ⟨by decide, by decide, by decide⟩

/-- Claim C3, corrected. When a pass selects a non-empty set of messages, the
watermark is advanced to the timestamp of the LAST selected message in
stored (append) order — `newMsgs[newMsgs.length - 1].timestamp` — not to the
maximum timestamp. The two coincide whenever the stored sequence is
timestamp-sorted (second conjunct), but differ on out-of-order sequences
(see `C3_counterexample`). -/
theorem C3_theorem (chats : Chats) (ts : TsMap) (oid : String)
    (h : (ChatSync.checkForNewMessages chats ts oid).2 ≠ []) :
    ∃ lastMsg, (ChatSync.checkForNewMessages chats ts oid).2.getLast? = some lastMsg
      ∧ lookupKV (ChatSync.checkForNewMessages chats ts oid).1 oid = some lastMsg.timestamp
      ∧ ((getMessagesOf chats oid).Pairwise (fun a b => jsLe a.timestamp b.timestamp = true) →
          ∀ m ∈ (ChatSync.checkForNewMessages chats ts oid).2,
            jsLe m.timestamp lastMsg.timestamp = true) := by
  rw [checkForNewMessages_snd] at h ⊢
  cases hlast : ((getMessagesOf chats oid).filter
      fun m => jsLt (tsOrEpoch ts oid) m.timestamp).getLast? with
  | none => exact absurd (List.getLast?_eq_none_iff.mp hlast) h
  | some lastMsg =>
    refine ⟨lastMsg, rfl, ?_, ?_⟩
    · rw [checkForNewMessages_fst_some chats ts oid lastMsg hlast, lookupKV_setKV_self]
    · intro hsorted m hm
      have hs' : ((getMessagesOf chats oid).filter
          fun m => jsLt (tsOrEpoch ts oid) m.timestamp).Pairwise
            (fun a b => a.timestamp ≤ b.timestamp) :=
        List.Pairwise.filter _ (hsorted.imp fun hab => jsLe_iff.mp hab)
      exact jsLe_iff.mpr (ts_le_getLast _ hs' lastMsg hlast m hm)

/-- Witness for C3 on a sorted two-message store: the watermark lands on the
last delivered message's timestamp and bounds both delivered messages. -/
theorem C3_witness :
    (ChatSync.checkForNewMessages (chatsWith [custMsgT1, custMsgT2]) [] "o1").2 ≠ []
    ∧ (getMessagesOf (chatsWith [custMsgT1, custMsgT2]) "o1").Pairwise
        (fun a b => jsLe a.timestamp b.timestamp = true)
    ∧ ∃ lastMsg,
        (ChatSync.checkForNewMessages (chatsWith [custMsgT1, custMsgT2]) [] "o1").2.getLast?
          = some lastMsg
        ∧ lookupKV (ChatSync.checkForNewMessages (chatsWith [custMsgT1, custMsgT2]) [] "o1").1 "o1"
          = some lastMsg.timestamp
        ∧ ∀ m ∈ (ChatSync.checkForNewMessages (chatsWith [custMsgT1, custMsgT2]) [] "o1").2,
            jsLe m.timestamp lastMsg.timestamp = true := by
  refine ⟨by decide, by decide, ?_⟩
  obtain ⟨lastMsg, h1, h2, h3⟩ :=
    C3_theorem (chatsWith [custMsgT1, custMsgT2]) [] "o1" (by decide)
  exact ⟨lastMsg, h1, h2, h3 (by decide)⟩

/-- Counterexample to C3 as stated: on a stored sequence whose append order
disagrees with timestamp order (`[custMsgT2, custMsgT1]`), the pass selects
both messages but advances the watermark to `"T1"` — the last selected
message's timestamp — while the maximum selected timestamp `"T2"` is
strictly above it. -/
theorem C3_counterexample :
    (ChatSync.checkForNewMessages (chatsWith [custMsgT2, custMsgT1]) [] "o1").2
      = [custMsgT2, custMsgT1]
    ∧ lookupKV (ChatSync.checkForNewMessages (chatsWith [custMsgT2, custMsgT1]) [] "o1").1 "o1"
      = some "T1"
    ∧ custMsgT2 ∈ (ChatSync.checkForNewMessages (chatsWith [custMsgT2, custMsgT1]) [] "o1").2
    ∧ jsLt "T1" custMsgT2.timestamp = true := by
  refine ⟨by decide, by decide, by decide, by decide⟩

/-- Claim C4, confirmed. Appending a message twice with the same id (through
`ChatSync.sendMessage`, and likewise through `Storage.addMessage` on a
non-quota-exhausted store) is idempotent on the stored sequence: starting
from a conversation holding no message with that id, exactly one stored
message with that id remains, and the second append leaves the persisted
chats map (resp. the raw store) unchanged; `addMessage` additionally reports
`false` for the duplicate. -/
theorem C4_theorem (u u2 : Option User) (now now2 : String) (chats : Chats)
    (unr unr2 : UnreadMap) (oid : String) (msg msg2 : Message)
    (hid : msg2.id = msg.id)
    (hfresh : ∀ m0 ∈ getMessagesOf chats oid, m0.id ≠ msg.id) :
    ((getMessagesOf (ChatSync.sendMessage u2 now2
          (ChatSync.sendMessage u now chats unr oid msg).1 unr2 oid msg2).1 oid).countP
        (fun m => m.id == msg.id) = 1
      ∧ (ChatSync.sendMessage u2 now2
          (ChatSync.sendMessage u now chats unr oid msg).1 unr2 oid msg2).1
        = (ChatSync.sendMessage u now chats unr oid msg).1)
    ∧ ∀ (st : KVStore Chats), st.quotaExceeded = false →
        (∀ m0 ∈ getMessagesOf (Storage.getChats st) oid, m0.id ≠ msg.id) →
        ((getMessagesOf (Storage.getChats
            (Storage.addMessage now2 (Storage.addMessage now st oid msg).1 oid msg2).1) oid).countP
          (fun m => m.id == msg.id) = 1
        ∧ (Storage.addMessage now2 (Storage.addMessage now st oid msg).1 oid msg2).1
            = (Storage.addMessage now st oid msg).1
        ∧ (Storage.addMessage now2 (Storage.addMessage now st oid msg).1 oid msg2).2 = false) := by
  constructor
  · have h1 := sendMessage_msgs_fresh u now chats unr oid msg hfresh
    have hdup : (ChatSync.sendMessage u2 now2
        (ChatSync.sendMessage u now chats unr oid msg).1 unr2 oid msg2).1
        = (ChatSync.sendMessage u now chats unr oid msg).1 := by
      apply sendMessage_chats_dup
      refine ⟨ChatSync.enrich u msg, ?_, ?_⟩
      · rw [h1]
        exact List.mem_append_right _ (List.mem_singleton_self _)
      · rw [enrich_id, hid]
    refine ⟨?_, hdup⟩
    rw [hdup, h1, List.countP_append]
    have h0 : (getMessagesOf chats oid).countP (fun m => m.id == msg.id) = 0 := by
      rw [List.countP_eq_zero]
      intro m0 hm0
      simp only [beq_iff_eq]
      exact hfresh m0 hm0
    rw [h0]
    simp [enrich_id]
  · intro st hq hfr
    obtain ⟨hmsgs1, hq1⟩ := addMessage_msgs_fresh now st oid msg hq hfr
    have hdup2 : Storage.addMessage now2 (Storage.addMessage now st oid msg).1 oid msg2
        = ((Storage.addMessage now st oid msg).1, false) := by
      apply addMessage_dup
      refine ⟨msg, ?_, hid.symm⟩
      rw [hmsgs1]
      exact List.mem_append_right _ (List.mem_singleton_self _)
    rw [hdup2]
    refine ⟨?_, rfl, rfl⟩
    rw [hmsgs1, List.countP_append]
    have h0 : (getMessagesOf (Storage.getChats st) oid).countP
        (fun m => m.id == msg.id) = 0 := by
      rw [List.countP_eq_zero]
      intro m0 hm0
      simp only [beq_iff_eq]
      exact hfr m0 hm0
    rw [h0]
    simp

/-- Witness for C4: sending the same customer message twice into an empty
store (both through `sendMessage` and through `addMessage`) leaves exactly
one copy. -/
theorem C4_witness :
    custMsgT1.id = custMsgT1.id
    ∧ (∀ m0 ∈ getMessagesOf ([] : Chats) "o1", m0.id ≠ custMsgT1.id)
    ∧ emptyStore.quotaExceeded = false
    ∧ (∀ m0 ∈ getMessagesOf (Storage.getChats emptyStore) "o1", m0.id ≠ custMsgT1.id)
    ∧ ((getMessagesOf (ChatSync.sendMessage none "T0"
          (ChatSync.sendMessage none "T0" [] [] "o1" custMsgT1).1 [] "o1" custMsgT1).1 "o1").countP
        (fun m => m.id == custMsgT1.id) = 1
      ∧ (ChatSync.sendMessage none "T0"
          (ChatSync.sendMessage none "T0" [] [] "o1" custMsgT1).1 [] "o1" custMsgT1).1
        = (ChatSync.sendMessage none "T0" [] [] "o1" custMsgT1).1)
    ∧ ((getMessagesOf (Storage.getChats
          (Storage.addMessage "T0" (Storage.addMessage "T0" emptyStore "o1" custMsgT1).1
            "o1" custMsgT1).1) "o1").countP
        (fun m => m.id == custMsgT1.id) = 1
      ∧ (Storage.addMessage "T0" (Storage.addMessage "T0" emptyStore "o1" custMsgT1).1
          "o1" custMsgT1).1
        = (Storage.addMessage "T0" emptyStore "o1" custMsgT1).1
      ∧ (Storage.addMessage "T0" (Storage.addMessage "T0" emptyStore "o1" custMsgT1).1
          "o1" custMsgT1).2 = false) :=
  ⟨rfl, by decide, rfl, by decide,
   (C4_theorem none none "T0" "T0" [] [] [] "o1" custMsgT1 custMsgT1 rfl (by decide)).1,
   (C4_theorem none none "T0" "T0" [] [] [] "o1" custMsgT1 custMsgT1 rfl (by decide)).2
     emptyStore rfl (by decide)⟩

/-- Claim C5, corrected. Quiescence after delivery holds only when the stored
sequence is timestamp-sorted (as it is when appends arrive in timestamp
order): then a reconcile pass immediately following any pass, with no
intervening writes, delivers nothing. On an out-of-order sequence the first
pass can leave the watermark below some already-delivered timestamp and the
second pass re-delivers (see `C5_counterexample`). -/
theorem C5_theorem (chats : Chats) (ts : TsMap) (oid : String)
    (hs : (getMessagesOf chats oid).Pairwise
      (fun a b => jsLe a.timestamp b.timestamp = true)) :
    (ChatSync.checkForNewMessages chats
      (ChatSync.checkForNewMessages chats ts oid).1 oid).2 = [] := by
  have hs' : (getMessagesOf chats oid).Pairwise
      (fun a b => a.timestamp ≤ b.timestamp) :=
    hs.imp fun h => jsLe_iff.mp h
  cases hlast : ((getMessagesOf chats oid).filter
      fun m => jsLt (tsOrEpoch ts oid) m.timestamp).getLast? with
  | none =>
    rw [checkForNewMessages_fst_none chats ts oid hlast, checkForNewMessages_snd]
    exact List.getLast?_eq_none_iff.mp hlast
  | some lastMsg =>
    rw [checkForNewMessages_fst_some chats ts oid lastMsg hlast, checkForNewMessages_snd]
    have htse : tsOrEpoch (setKV ts oid lastMsg.timestamp) oid = lastMsg.timestamp := by
      rw [tsOrEpoch, lookupKV_setKV_self]
    rw [htse, List.filter_eq_nil_iff]
    intro m hm hjs
    have hlt : lastMsg.timestamp < m.timestamp := jsLt_iff.mp hjs
    have hlm := List.mem_of_getLast?_eq_some hlast
    have hwl : tsOrEpoch ts oid < lastMsg.timestamp :=
      jsLt_iff.mp (List.mem_filter.mp hlm).2
    have hmf : m ∈ (getMessagesOf chats oid).filter
        fun m => jsLt (tsOrEpoch ts oid) m.timestamp :=
      List.mem_filter.mpr ⟨hm, jsLt_iff.mpr (lt_trans hwl hlt)⟩
    have hps := List.Pairwise.filter
      (fun m : Message => jsLt (tsOrEpoch ts oid) m.timestamp) hs'
    have hle := ts_le_getLast _ hps lastMsg hlast m hmf
    exact absurd hlt (not_lt.mpr hle)

/-- Witness for C5 on a sorted store: the pass after a delivering pass is
quiet. -/
theorem C5_witness :
    (getMessagesOf (chatsWith [custMsgT1, custMsgT2]) "o1").Pairwise
      (fun a b => jsLe a.timestamp b.timestamp = true)
    ∧ (ChatSync.checkForNewMessages (chatsWith [custMsgT1, custMsgT2])
        (ChatSync.checkForNewMessages (chatsWith [custMsgT1, custMsgT2]) [] "o1").1 "o1").2
      = [] :=
  ⟨by decide, C5_theorem (chatsWith [custMsgT1, custMsgT2]) [] "o1" (by decide)⟩

/-- Counterexample to C5 as stated: on the out-of-order store
`[custMsgT2, custMsgT1]` the first pass delivers both messages, yet the
immediately following pass (no intervening writes) delivers `custMsgT2`
again. -/
theorem C5_counterexample :
    (ChatSync.checkForNewMessages (chatsWith [custMsgT2, custMsgT1]) [] "o1").2
      = [custMsgT2, custMsgT1]
    ∧ (ChatSync.checkForNewMessages (chatsWith [custMsgT2, custMsgT1])
        (ChatSync.checkForNewMessages (chatsWith [custMsgT2, custMsgT1]) [] "o1").1 "o1").2
      = [custMsgT2] := by
  refine ⟨by decide, by decide⟩

/-- Claim C6, confirmed. For any sequence of appends (via `sendMessage`, with
distinct ids so that none is deduplicated away) whose timestamps strictly
increase, a reconcile pass on a fresh listener (empty watermark map, i.e.
watermark epoch zero) delivers exactly the selected messages — the appended
(enriched) messages above epoch zero — in strictly ascending timestamp
order, each exactly once (the delivered list has no duplicates). -/
theorem C6_theorem (u : Option User) (now oid : String) (chats : Chats)
    (unr : UnreadMap) (ms : List Message)
    (h0 : lookupKV chats oid = none)
    (h1 : (ms.map Message.id).Nodup)
    (h2 : ms.Pairwise fun a b => jsLt a.timestamp b.timestamp = true) :
    (ChatSync.checkForNewMessages (ChatSync.sendAll u now oid (chats, unr) ms).1 [] oid).2
      = (ms.map (ChatSync.enrich u)).filter (fun m => jsLt epochZero m.timestamp)
    ∧ (ChatSync.checkForNewMessages
        (ChatSync.sendAll u now oid (chats, unr) ms).1 [] oid).2.Pairwise
        (fun a b => jsLt a.timestamp b.timestamp = true)
    ∧ (ChatSync.checkForNewMessages
        (ChatSync.sendAll u now oid (chats, unr) ms).1 [] oid).2.Nodup := by
  have hempty : getMessagesOf chats oid = [] := by simp [getMessagesOf, h0]
  have hmsgs := sendAll_msgs u now oid ms chats unr
    (fun m _ m0 hm0 => absurd (hempty ▸ hm0) (List.not_mem_nil m0)) h1
  rw [hempty, List.nil_append] at hmsgs
  have hts : tsOrEpoch ([] : TsMap) oid = epochZero := rfl
  have hchar : (ChatSync.checkForNewMessages
      (ChatSync.sendAll u now oid (chats, unr) ms).1 [] oid).2
      = (ms.map (ChatSync.enrich u)).filter (fun m => jsLt epochZero m.timestamp) := by
    rw [checkForNewMessages_snd, hmsgs, hts]
  have hpair : ((ms.map (ChatSync.enrich u)).filter
      (fun m => jsLt epochZero m.timestamp)).Pairwise
      (fun a b => jsLt a.timestamp b.timestamp = true) := by
    apply List.Pairwise.filter
    rw [List.pairwise_map]
    exact h2
  refine ⟨hchar, hchar ▸ hpair, ?_⟩
  rw [hchar]
  have hne : ∀ (a b : Message), jsLt a.timestamp b.timestamp = true → a ≠ b := by
    intro a b hab he
    subst he
    exact absurd (jsLt_iff.mp hab) (lt_irrefl _)
  exact hpair.imp fun hab => hne _ _ hab

/-- Witness for C6: appending two customer messages with increasing
timestamps into an empty store and reconciling with a fresh listener. -/
theorem C6_witness :
    lookupKV ([] : Chats) "o1" = none
    ∧ ([custMsgT1, custMsgT2].map Message.id).Nodup
    ∧ [custMsgT1, custMsgT2].Pairwise (fun a b => jsLt a.timestamp b.timestamp = true)
    ∧ ((ChatSync.checkForNewMessages
          (ChatSync.sendAll none "T0" "o1" ([], []) [custMsgT1, custMsgT2]).1 [] "o1").2
        = ([custMsgT1, custMsgT2].map (ChatSync.enrich none)).filter
            (fun m => jsLt epochZero m.timestamp)
      ∧ (ChatSync.checkForNewMessages
          (ChatSync.sendAll none "T0" "o1" ([], []) [custMsgT1, custMsgT2]).1 [] "o1").2.Pairwise
          (fun a b => jsLt a.timestamp b.timestamp = true)
      ∧ (ChatSync.checkForNewMessages
          (ChatSync.sendAll none "T0" "o1" ([], []) [custMsgT1, custMsgT2]).1 [] "o1").2.Nodup) :=
  ⟨rfl, by decide, by decide,
   C6_theorem none "T0" "o1" [] [] [custMsgT1, custMsgT2] rfl (by decide) (by decide)⟩

/-- Claim C7, corrected. The unread counter is incremented on every
`sendMessage` call whose message sender is not `'driver'` — including calls
whose message is deduplicated and NOT inserted (the increment sits outside
the dedup guard; see `C7_counterexample`) — so N sends with fresh ids from a
fresh state yield count N, `markAllRead` resets the count to 0 regardless of
its value, and `getUnreadCount` returns 0 when no entry exists. -/
theorem C7_theorem (u : Option User) (now oid : String) (chats : Chats)
    (unr : UnreadMap) (msg : Message) (ms : List Message) :
    ChatSync.getUnreadCount (ChatSync.sendMessage u now chats unr oid msg).2 oid
      = ChatSync.getUnreadCount unr oid + (if msg.sender = "driver" then 0 else 1)
    ∧ ChatSync.getUnreadCount (ChatSync.sendAll u now oid (chats, unr) ms).2 oid
      = ChatSync.getUnreadCount unr oid + ms.countP (fun m => !(m.sender == "driver"))
    ∧ ChatSync.getUnreadCount (ChatSync.markAllRead unr oid) oid = 0
    ∧ ChatSync.getUnreadCount ([] : UnreadMap) oid = 0 :=
  ⟨sendMessage_unread u now chats unr oid msg,
   sendAll_unread u now oid ms chats unr,
   by rw [ChatSync.getUnreadCount, ChatSync.markAllRead, natOrZero, lookupKV_removeKV_self],
   rfl⟩

/-- Counterexample to C7 as stated ("on no other occasion"): sending the
same customer message twice inserts it once but increments the unread
counter twice — the count can exceed the number of inserted messages. -/
theorem C7_counterexample :
    (getMessagesOf (ChatSync.sendMessage none "T0"
        (ChatSync.sendMessage none "T0" [] [] "o1" custMsgT1).1
        (ChatSync.sendMessage none "T0" [] [] "o1" custMsgT1).2 "o1" custMsgT1).1 "o1").length = 1
    ∧ ChatSync.getUnreadCount (ChatSync.sendMessage none "T0"
        (ChatSync.sendMessage none "T0" [] [] "o1" custMsgT1).1
        (ChatSync.sendMessage none "T0" [] [] "o1" custMsgT1).2 "o1" custMsgT1).2 "o1" = 2 := by
  refine ⟨by decide, by decide⟩

/-- Claim C8, confirmed. `deleteChatHistory` empties the target
conversation's message sequence and stamps `lastMessageTime = now` while
preserving the record and its other fields, leaves every other conversation
untouched, does not create a record for a nonexistent id (the lookup stays
`none`), and the customer-bridge variant applies exactly the same store
transformation for an explicit non-empty order id. -/
theorem C8_theorem (now : String) (chats : Chats) (oid : String) :
    lookupKV (ChatSync.deleteChatHistory now chats oid) oid
      = (lookupKV chats oid).map (fun c => { c with messages := [], lastMessageTime := now })
    ∧ (∀ k, k ≠ oid →
        lookupKV (ChatSync.deleteChatHistory now chats oid) k = lookupKV chats k)
    ∧ (∀ st : ChatSyncBridge.BridgeState, oid ≠ "" →
        (ChatSyncBridge.deleteChatHistory now (some oid) st chats).1
          = ChatSync.deleteChatHistory now chats oid) := by
  refine ⟨?_, ?_, ?_⟩
  · cases hl : lookupKV chats oid with
    | none => simp [ChatSync.deleteChatHistory, hl]
    | some c => simp [ChatSync.deleteChatHistory, hl, lookupKV_setKV_self]
  · intro k hk
    cases hl : lookupKV chats oid with
    | none => simp [ChatSync.deleteChatHistory, hl]
    | some c => simp [ChatSync.deleteChatHistory, hl, lookupKV_setKV_ne _ _ _ _ hk]
  · intro st hoid
    simp only [ChatSyncBridge.deleteChatHistory]
    rw [if_neg hoid]
    cases hl : lookupKV chats oid <;> simp [ChatSync.deleteChatHistory, hl]

/-- Witness for C8: clearing `"o1"` on a one-conversation store empties it
in place, leaves the (absent) `"o2"` untouched, and the bridge variant
produces the same store. -/
theorem C8_witness :
    ("o2" : String) ≠ "o1"
    ∧ ("o1" : String) ≠ ""
    ∧ lookupKV (ChatSync.deleteChatHistory "T9" (chatsWith [custMsgT1]) "o1") "o1"
      = (lookupKV (chatsWith [custMsgT1]) "o1").map
          (fun c => { c with messages := [], lastMessageTime := "T9" })
    ∧ lookupKV (ChatSync.deleteChatHistory "T9" (chatsWith [custMsgT1]) "o1") "o2"
      = lookupKV (chatsWith [custMsgT1]) "o2"
    ∧ (ChatSyncBridge.deleteChatHistory "T9" (some "o1") ChatSyncBridge.initialState
        (chatsWith [custMsgT1])).1
      = ChatSync.deleteChatHistory "T9" (chatsWith [custMsgT1]) "o1" :=
  ⟨by decide, by decide,
   ( C8_theorem "T9" (chatsWith [custMsgT1]) "o1").1,
   ( C8_theorem "T9" (chatsWith [custMsgT1]) "o1").2.1 "o2" (by decide),
   ( C8_theorem "T9" (chatsWith [custMsgT1]) "o1").2.2 ChatSyncBridge.initialState (by decide)⟩

/-- Claim C9, corrected. The read paths never raise: `Storage._safeGet`
returns `null` on an absent cell and on a parse failure, and the map readers
(`Storage.getChats`, `ChatSync._readChats`) return the empty map in those
cases; `Storage._safeSet` returns `false` on a write failure without
throwing. However the claim's "set returns false ... without throwing" is
false for `ChatSync._writeChats`, which performs a bare `setItem` with no
try/catch and propagates the write failure to its caller (modelled as
`Except.error`; see `C9_counterexample`). -/
theorem C9_theorem (α : Type) (st : KVStore α) (stc : KVStore Chats) (v : α)
    (c : Chats) :
    (st.cell = none → Storage.safeGet st = none)
    ∧ (st.cell = some Raw.corrupt → Storage.safeGet st = none)
    ∧ (stc.cell = some Raw.corrupt →
        Storage.getChats stc = [] ∧ ChatSync.readChats stc = [])
    ∧ (st.quotaExceeded = true → Storage.safeSet st v = (st, false))
    ∧ (st.quotaExceeded = false → (Storage.safeSet st v).2 = true)
    ∧ (stc.quotaExceeded = true → ChatSync.writeChats stc c = Except.error ()) := by
  refine ⟨?_, ?_, ?_, ?_, ?_, ?_⟩ <;> intro h <;>
    simp [Storage.safeGet, Storage.getChats, ChatSync.readChats, Storage.safeSet,
      ChatSync.writeChats, h]

/-- Witness for C9 on concrete stores: an absent cell reads as `null`, a
corrupt cell reads as `null` / empty map, a quota-exhausted store makes
`safeSet` return `false` gracefully while `writeChats` raises. -/
theorem C9_witness :
    emptyStore.cell = none
    ∧ Storage.safeGet emptyStore = none
    ∧ corruptStore.cell = some Raw.corrupt
    ∧ Storage.safeGet corruptStore = none
    ∧ (Storage.getChats corruptStore = [] ∧ ChatSync.readChats corruptStore = [])
    ∧ quotaStore.quotaExceeded = true
    ∧ Storage.safeSet quotaStore [] = (quotaStore, false)
    ∧ emptyStore.quotaExceeded = false
    ∧ (Storage.safeSet emptyStore []).2 = true
    ∧ ChatSync.writeChats quotaStore [] = Except.error () :=
  ⟨rfl,
   (C9_theorem Chats emptyStore corruptStore [] []).1 rfl,
   rfl,
   (C9_theorem Chats corruptStore corruptStore [] []).2.1 rfl,
   (C9_theorem Chats corruptStore corruptStore [] []).2.2.1 rfl,
   rfl,
   (C9_theorem Chats quotaStore quotaStore [] []).2.2.2.1 rfl,
   rfl,
   (C9_theorem Chats emptyStore emptyStore [] []).2.2.2.2.1 rfl,
   (C9_theorem Chats quotaStore quotaStore [] []).2.2.2.2.2 rfl⟩

/-- Counterexample to C9 as stated: on a quota-exhausted store the cited
`ChatSync._writeChats` raises (the `setItem` exception propagates, modelled
as `Except.error`) instead of returning `false` — unlike `Storage._safeSet`
on the same store. -/
theorem C9_counterexample :
    ChatSync.writeChats quotaStore [] = Except.error ()
    ∧ Storage.safeSet quotaStore ([] : Chats) = (quotaStore, false) := by
  refine ⟨rfl, rfl⟩

/-- Claim C10, corrected. Before `init` has set an active order id,
`sendTextMessage` and `sendImageMessage` write nothing, `getHistory`
returns the empty list, and `deleteChatHistory` invoked without an explicit
order id is a no-op — but `deleteChatHistory` called with an explicit
non-empty order id still clears that conversation even before `init` (the
target falls back to the argument; see `C10_counterexample`), so the facade
is not a total no-op. -/
theorem C10_theorem (u : Option User) (genId now text dataUrl : String)
    (fileName : Option String) (st : ChatSyncBridge.BridgeState)
    (chats : Chats) (unr : UnreadMap) (oidArg : String)
    (h : st.activeOrderId = none) :
    ChatSyncBridge.sendTextMessage u genId now text st chats unr = (chats, unr)
    ∧ ChatSyncBridge.sendImageMessage u genId now dataUrl fileName st chats unr
        = (chats, unr)
    ∧ ChatSyncBridge.getHistory st chats = []
    ∧ ChatSyncBridge.deleteChatHistory now none st chats = (chats, st)
    ∧ (oidArg ≠ "" →
        (ChatSyncBridge.deleteChatHistory now (some oidArg) st chats).1
          = ChatSync.deleteChatHistory now chats oidArg) := by
  have ha : ChatSyncBridge.activeOrDefault st = none := by
    simp [ChatSyncBridge.activeOrDefault, h]
  refine ⟨?_, ?_, ?_, ?_, ?_⟩
  · simp [ChatSyncBridge.sendTextMessage, ha]
  · simp [ChatSyncBridge.sendImageMessage, ha]
  · simp [ChatSyncBridge.getHistory, h]
  · simp [ChatSyncBridge.deleteChatHistory, ha]
  · intro hoid
    simp only [ChatSyncBridge.deleteChatHistory]
    rw [if_neg hoid]
    cases hl : lookupKV chats oidArg <;> simp [ChatSync.deleteChatHistory, hl]

/-- Witness for C10 on the pre-init state and a one-conversation store. -/
theorem C10_witness :
    ChatSyncBridge.initialState.activeOrderId = none
    ∧ ("o1" : String) ≠ ""
    ∧ ChatSyncBridge.sendTextMessage none "m1" "T1" "hi" ChatSyncBridge.initialState
        (chatsWith [custMsgT1]) [] = (chatsWith [custMsgT1], [])
    ∧ ChatSyncBridge.sendImageMessage none "m1" "T1" "img" (some "f.png")
        ChatSyncBridge.initialState (chatsWith [custMsgT1]) []
        = (chatsWith [custMsgT1], [])
    ∧ ChatSyncBridge.getHistory ChatSyncBridge.initialState (chatsWith [custMsgT1]) = []
    ∧ ChatSyncBridge.deleteChatHistory "T1" none ChatSyncBridge.initialState
        (chatsWith [custMsgT1]) = (chatsWith [custMsgT1], ChatSyncBridge.initialState)
    ∧ (ChatSyncBridge.deleteChatHistory "T1" (some "o1") ChatSyncBridge.initialState
        (chatsWith [custMsgT1])).1
      = ChatSync.deleteChatHistory "T1" (chatsWith [custMsgT1]) "o1" :=
  ⟨rfl, by decide,
   (C10_theorem none "m1" "T1" "hi" "img" (some "f.png") ChatSyncBridge.initialState
      (chatsWith [custMsgT1]) [] "o1" rfl).1,
   (C10_theorem none "m1" "T1" "hi" "img" (some "f.png") ChatSyncBridge.initialState
      (chatsWith [custMsgT1]) [] "o1" rfl).2.1,
   (C10_theorem none "m1" "T1" "hi" "img" (some "f.png") ChatSyncBridge.initialState
      (chatsWith [custMsgT1]) [] "o1" rfl).2.2.1,
   (C10_theorem none "m1" "T1" "hi" "img" (some "f.png") ChatSyncBridge.initialState
      (chatsWith [custMsgT1]) [] "o1" rfl).2.2.2.1,
   (C10_theorem none "m1" "T1" "hi" "img" (some "f.png") ChatSyncBridge.initialState
      (chatsWith [custMsgT1]) [] "o1" rfl).2.2.2.2 (by decide)⟩

/-- Counterexample to C10 as stated: with no active order id set, calling
`deleteChatHistory` with an explicit order id changes the shared store — it
is not a no-op at the public interface. -/
theorem C10_counterexample :
    ChatSyncBridge.initialState.activeOrderId = none
    ∧ (ChatSyncBridge.deleteChatHistory "T9" (some "o1") ChatSyncBridge.initialState
        (chatsWith [custMsgT1])).1 ≠ chatsWith [custMsgT1] := by
  refine ⟨rfl, by decide⟩

end RideFlow
